import Mathlib

/-!
Verification development for the fluid-control telemetry core (src/src/gui.py).

The embedding translates, from the source:
  - class ArduinoSerial: connect / disconnect / send / receive /
    reset_input_buffer / is_connected, with the guard
    `if self.connection and self.connection.is_open` rendered by isOpenConn;
  - PlotApp.grab_data: one acquisition round over the channel list
    sensors = [A0, A1, FS], with the marker / length / payload handling of
    lines 379-387 rendered by grabChannel, and the deque(maxlen=W) append
    rendered by dappend;
  - the serial environment (available ports, whether opening a port raises
    SerialException, the bytes a channel answers with) is passed explicitly.

Bytes are Nat values (each below 256 on real input); the float sample of
channel FS is stored as the little-endian 32-bit pattern of its payload,
since struct.unpack with format <f is injective on the byte level and no
claim compares float values. Python exceptions (IndexError from data[1],
struct.error from a payload slice whose length is not 4) are the PyError
outcomes; an uncaught exception aborts the round, so a round returns the
store as mutated so far, the requests written to the wire, and the escaped
exception if any.
-/

/-- The three logical channels polled by grab_data, in poll order. -/
inductive Channel
  | A0
  | A1
  | FS
deriving DecidableEq, Repr

/-- self.sensors = ["A0", "A1", "FS"] (gui.py line 157). -/
def sensors : List Channel := [Channel.A0, Channel.A1, Channel.FS]

/-- The name used in the READ request for a channel. -/
def chName : Channel → String
  | Channel.A0 => "A0"
  | Channel.A1 => "A1"
  | Channel.FS => "FS"

/-- A decoded sample: unsigned-int channels store a Nat; the float channel
stores the little-endian 32-bit pattern of its 4 payload bytes. -/
inductive Sample
  | uint (v : Nat)
  | float32 (bits : Nat)
deriving DecidableEq, Repr

/-- Python exceptions that can escape grab_data: IndexError from data[1]
on a 1-byte response, struct.error from struct.unpack of a slice whose
length is not 4. -/
inductive PyError
  | indexError
  | structError
deriving DecidableEq, Repr

/-- The value a Python call returns to its caller (connect returns None;
the spec claims a bool). -/
inductive PyReturn
  | none
  | bool (b : Bool)
deriving DecidableEq, Repr

/-- The serial.Serial connection object: only is_open is observable here. -/
structure SerialConn where
  is_open : Bool
deriving DecidableEq, Repr

/-- The state of an ArduinoSerial object: self.port and self.connection
(None or a connection object). -/
structure ArduinoSerial where
  port : String
  connection : Option SerialConn
deriving DecidableEq, Repr

/-- The guard `self.connection and self.connection.is_open` (None is falsy). -/
def isOpenConn (s : ArduinoSerial) : Bool :=
  match s.connection with
  | some c => c.is_open
  | none => false

/-- ArduinoSerial.is_connected (gui.py lines 116-122). -/
def ArduinoSerial.is_connected (s : ArduinoSerial) : Bool :=
  isOpenConn s

/-- ArduinoSerial.send (gui.py lines 79-89): writes the encoded data to the
wire only when the connection is open; otherwise a silent no-op. -/
def ArduinoSerial.send (s : ArduinoSerial) (data : String) (wire : List String) :
    List String :=
  if isOpenConn s then wire ++ [data] else wire

/-- ArduinoSerial.receive (gui.py lines 92-104): when open and bytes are
waiting, returns the line read; otherwise returns the empty value. -/
def ArduinoSerial.receive (s : ArduinoSerial) (avail : List Nat) : List Nat :=
  if isOpenConn s then
    (if 0 < avail.length then avail else [])
  else []

/-- ArduinoSerial.reset_input_buffer (gui.py lines 106-114): clears the
input buffer only when the connection is open. -/
def ArduinoSerial.reset_input_buffer (s : ArduinoSerial) (buf : List Nat) :
    List Nat :=
  if isOpenConn s then [] else buf

/-- ArduinoSerial.disconnect (gui.py lines 68-77): closes the connection only
when it is present and open; otherwise a silent no-op. -/
def ArduinoSerial.disconnect (s : ArduinoSerial) : ArduinoSerial :=
  if isOpenConn s then
    { s with connection := s.connection.map (fun c => { c with is_open := false }) }
  else s

/-- One entry of serial.tools.list_ports.comports(). -/
structure PortInfo where
  device : String
  description : String
deriving DecidableEq, Repr

/-- The serial environment connect runs against: the enumerated ports, and
whether serial.Serial succeeds (true) or raises SerialException (false)
for a given port string. -/
structure Env where
  ports : List PortInfo
  openPort : String → Bool

/-- needle matches at the head of the haystack. -/
def leadMatch : List Char → List Char → Bool
  | [], _ => true
  | _ :: _, [] => false
  | a :: as, b :: bs => a == b && leadMatch as bs

/-- needle occurs somewhere in the haystack. -/
def containsSeq (needle : List Char) : List Char → Bool
  | [] => leadMatch needle []
  | c :: rest => leadMatch needle (c :: rest) || containsSeq needle rest

/-- The Python membership test asking whether the word Arduino occurs in
port.description. -/
def hasArduino (s : String) : Bool :=
  containsSeq "Arduino".toList s.toList

/-- The scan loop of connect (gui.py lines 53-60): every matching port
overwrites self.port; with no break, the LAST match wins. -/
def scanPorts (ports : List PortInfo) (port0 : String) : String :=
  ports.foldl (fun acc p => if hasArduino p.description then p.device else acc) port0

/-- The port connect will pass to serial.Serial: the scan result when
self.port is empty, self.port itself otherwise. -/
def selectedPort (env : Env) (s : ArduinoSerial) : String :=
  if s.port = "" then scanPorts env.ports s.port else s.port

/-- ArduinoSerial.connect (gui.py lines 39-66): scans when the port is empty,
opens the selected port, and catches SerialException (printing it); it
always returns None to its caller. -/
def ArduinoSerial.connect (env : Env) (s : ArduinoSerial) : ArduinoSerial × PyReturn :=
  let port := selectedPort env s
  if env.openPort port then
    ({ s with port := port, connection := some { is_open := true } }, PyReturn.none)
  else
    ({ s with port := port }, PyReturn.none)

/-- The per-channel deques self.adc_data of PlotApp (gui.py lines 159-161). -/
structure Store where
  a0 : List Sample
  a1 : List Sample
  fs : List Sample
deriving DecidableEq, Repr

/-- Read the deque of one channel. -/
def Store.get (st : Store) : Channel → List Sample
  | Channel.A0 => st.a0
  | Channel.A1 => st.a1
  | Channel.FS => st.fs

/-- Replace the deque of one channel. -/
def Store.set (st : Store) : Channel → List Sample → Store
  | Channel.A0, q => { st with a0 := q }
  | Channel.A1, q => { st with a1 := q }
  | Channel.FS, q => { st with fs := q }

/-- deque(maxlen=W).append: when full, the oldest element is evicted. -/
def dappend (W : Nat) (q : List Sample) (x : Sample) : List Sample :=
  (q ++ [x]).drop (q.length + 1 - W)

/-- Append a whole list of samples in order through dappend. -/
def dappendAll (W : Nat) (q : List Sample) (xs : List Sample) : List Sample :=
  xs.foldl (dappend W) q

/-- self.data_window_len (gui.py line 154). -/
def data_window_len : Nat := 50

/-- int.from_bytes(bytes, byteorder=little) over byte values. -/
def leNat : List Nat → Nat
  | [] => 0
  | b :: bs => b % 256 + 256 * leNat bs

/-- The response handling of grab_data for one channel (gui.py lines
379-387): on a non-empty response whose first byte is 82 (ASCII R), read
the declared length data[1] (IndexError on a 1-byte response), slice
data[2:2+L] (clamped, as in Python), and append the decoded sample; channel
FS uses struct.unpack with format <f, which raises struct.error unless the
slice has exactly 4 bytes; other channels use int.from_bytes, which accepts
any length. An empty response or a wrong marker appends nothing. -/
def grabChannel (ch : Channel) (data : List Nat) (q : List Sample) (W : Nat) :
    Except PyError (List Sample) :=
  if 0 < data.length then
    if data.headD 0 = 82 then
      match data.drop 1 with
      | [] => Except.error PyError.indexError
      | L :: _ =>
        let payload := (data.drop 2).take L
        if ch = Channel.FS then
          if payload.length = 4 then
            Except.ok (dappend W q (Sample.float32 (leNat payload)))
          else Except.error PyError.structError
        else
          Except.ok (dappend W q (Sample.uint (leNat payload)))
    else Except.ok q
  else Except.ok q

/-- The loop of grab_data over a channel list: per channel, flush, send the
READ request, receive, handle the response; an escaped Python exception
stops the loop, keeping the mutations already made. Returns the store, the
requests written to the wire, and the escaped exception if any. -/
def runRound (ard : ArduinoSerial) (resp : Channel → List Nat) (W : Nat) :
    List Channel → Store → List String → Store × List String × Option PyError
  | [], st, wire => (st, wire, none)
  | ch :: rest, st, wire =>
    let wire1 := ard.send ("READ " ++ chName ch ++ "\n") wire
    let data := ard.receive (resp ch)
    match grabChannel ch data (Store.get st ch) W with
    | Except.ok q => runRound ard resp W rest (Store.set st ch q) wire1
    | Except.error e => (st, wire1, some e)

/-- PlotApp.grab_data (gui.py lines 365-387): one acquisition round over
sensors, against the link state ard and the responses resp the environment
provides per channel. -/
def grab_data (ard : ArduinoSerial) (resp : Channel → List Nat) (W : Nat)
    (st : Store) : Store × List String × Option PyError :=
  runRound ard resp W sensors st []

/-! ### Concrete fixtures for witnesses and counterexamples -/

/-- A link whose connection was never opened. -/
def ardClosed : ArduinoSerial := { port := "", connection := none }

/-- A link with an open connection on COM3. -/
def ardOpen : ArduinoSerial := { port := "COM3", connection := some { is_open := true } }

/-- A link whose connection exists but was closed. -/
def ardShut : ArduinoSerial := { port := "COM3", connection := some { is_open := false } }

/-- All three deques empty, as right after startup. -/
def st0 : Store := { a0 := [], a1 := [], fs := [] }

/-- A response set whose A0 answer is a bare marker byte. -/
def respAbort : Channel → List Nat := fun ch =>
  match ch with
  | Channel.A0 => [82]
  | _ => [82, 1, 7]

/-- A response set where A0 answers nothing, A1 answers with a wrong
marker, and FS answers a valid 4-byte-payload frame. -/
def respSkip : Channel → List Nat := fun ch =>
  match ch with
  | Channel.A0 => []
  | Channel.A1 => [7, 7]
  | Channel.FS => [82, 4, 0, 0, 128, 63]

/-- An environment with no ports at all and every open failing. -/
def envNoArduino : Env := { ports := [], openPort := fun _ => false }

/-- An environment with two ports whose descriptions both mention Arduino. -/
def envTwoArduinos : Env :=
  { ports := [ { device := "COM3", description := "Arduino Uno" },
               { device := "COM4", description := "Arduino Mega" } ],
    openPort := fun _ => true }

/-! ### Helper lemmas -/

/-- Writing back the value just read leaves the store unchanged. -/
theorem Store.set_get (st : Store) (ch : Channel) :
    Store.set st ch (Store.get st ch) = st := by
  cases st; cases ch <;> rfl

/-- On a link that is not open, every round step is inert: receive yields
the empty value, nothing is written, nothing is appended. -/
theorem runRound_closed (ard : ArduinoSerial) (resp : Channel → List Nat)
    (W : Nat) (chs : List Channel) (st : Store) (wire : List String)
    (h : isOpenConn ard = false) :
    runRound ard resp W chs st wire = (st, wire, none) := by
  induction chs generalizing st wire with
  | nil => rfl
  | cons ch rest ih =>
    simp only [runRound, ArduinoSerial.send, ArduinoSerial.receive, h,
      if_false, Bool.false_eq_true, grabChannel]
    simp only [List.length_nil, lt_irrefl, if_false, reduceIte]
    rw [Store.set_get]
    exact ih st wire

/-- Length after a bounded append. -/
theorem dappend_length (W : Nat) (q : List Sample) (x : Sample) :
    (dappend W q x).length = q.length + 1 - (q.length + 1 - W) := by
  simp [dappend]

/-- Closed form of repeated bounded appends: the result is the suffix of
the full sequence that fits in the window. -/
theorem dappendAll_eq (W : Nat) (xs : List Sample) : ∀ (q : List Sample),
    q.length ≤ W →
    dappendAll W q xs = (q ++ xs).drop (q.length + xs.length - W) := by
  induction xs with
  | nil =>
    intro q hq
    have h0 : q.length - W = 0 := by omega
    simp [dappendAll, h0]
  | cons x t ih =>
    intro q hq
    have hstep : dappendAll W q (x :: t) = dappendAll W (dappend W q x) t := rfl
    rw [hstep, ih (dappend W q x) (by rw [dappend_length]; omega)]
    rw [dappend_length]
    have hle : q.length + 1 - W ≤ (q ++ [x]).length := by
      simp only [List.length_append, List.length_cons, List.length_nil]
      omega
    show (((q ++ [x]).drop (q.length + 1 - W)) ++ t).drop
        (q.length + 1 - (q.length + 1 - W) + t.length - W) = _
    rw [← List.drop_append_of_le_length hle, List.drop_drop]
    have hl : (q ++ [x]) ++ t = q ++ x :: t := by simp
    rw [hl]
    congr 1
    simp only [List.length_cons, List.length_append, List.length_nil]
    omega

/-- An empty response, or one with a wrong first byte, leaves the deque
untouched and raises nothing. -/
theorem grabChannel_skip (ch : Channel) (data : List Nat) (q : List Sample)
    (W : Nat) (h : data = [] ∨ data.headD 0 ≠ 82) :
    grabChannel ch data q W = Except.ok q := by
  rcases h with h | h
  · subst h; rfl
  · cases data with
    | nil => rfl
    | cons b rest =>
      simp only [List.headD_cons] at h
      simp [grabChannel, h]

/-- On an open link, receive hands back exactly the available bytes. -/
theorem receive_id (s : ArduinoSerial) (hopen : isOpenConn s = true)
    (avail : List Nat) : s.receive avail = avail := by
  cases avail with
  | nil => simp [ArduinoSerial.receive, hopen]
  | cons b rest => simp [ArduinoSerial.receive, hopen]

/-! ### Claim theorems -/

/-- Claim C5: a per-channel deque of capacity W never exceeds W samples;
appending W+1 samples to an empty channel of capacity W leaves exactly the
last W appended samples in arrival order, the oldest evicted first
(FIFO, no reordering, no gaps inside the window); W is 50 by default
(data_window_len). -/
theorem ring_store_fifo (W : Nat) (xs q : List Sample) (x : Sample)
    (hxs : xs.length = W + 1) :
    dappendAll W [] xs = xs.drop 1 ∧ (dappendAll W [] xs).length = W ∧
    (dappend W q x).length ≤ W ∧ data_window_len = 50 := by
  have h1 : dappendAll W [] xs = xs.drop 1 := by
    rw [dappendAll_eq W xs [] (by simp)]
    simp only [List.nil_append, List.length_nil, Nat.zero_add]
    congr 1
    omega
  refine ⟨h1, ?_, ?_, rfl⟩
  · rw [h1]; simp [hxs]
  · rw [dappend_length]; omega

/-- Claim C5 witness at W = 2 with three appended samples. -/
theorem ring_store_fifo_w :
    (([Sample.uint 1, Sample.uint 2, Sample.uint 3] : List Sample).length = 2 + 1 ∧
      ([] : List Sample).length ≤ 2) ∧
    (dappendAll 2 [] [Sample.uint 1, Sample.uint 2, Sample.uint 3] =
        ([Sample.uint 1, Sample.uint 2, Sample.uint 3] : List Sample).drop 1 ∧
      (dappendAll 2 [] [Sample.uint 1, Sample.uint 2, Sample.uint 3]).length = 2 ∧
      (dappend 2 [] (Sample.uint 4)).length ≤ 2 ∧ data_window_len = 50) :=
  ⟨⟨by decide, by decide⟩,
    ring_store_fifo 2 [Sample.uint 1, Sample.uint 2, Sample.uint 3] [] (Sample.uint 4)
      (by decide)⟩

/-- Claim C8: if the link is not connected (connection absent or not open)
at round start, the acquisition round is a complete no-op: the store is
unchanged, no bytes are sent, and no error escapes. -/
theorem round_noop_closed (ard : ArduinoSerial) (resp : Channel → List Nat)
    (W : Nat) (st : Store) (h : isOpenConn ard = false) :
    grab_data ard resp W st = (st, [], none) :=
  runRound_closed ard resp W sensors st [] h

/-- Claim C8 witness on the never-opened link, with responses that would
decode fine were the link open. -/
theorem round_noop_closed_w :
    isOpenConn ardClosed = false ∧
    grab_data ardClosed (fun _ => [82, 1, 7]) 50 st0 = (st0, [], none) :=
  ⟨by decide, round_noop_closed ardClosed (fun _ => [82, 1, 7]) 50 st0 (by decide)⟩

/-- Claim C10: every link operation on an unopened or closed link is a
silent no-op that returns normally: send writes nothing to the wire,
receive returns the empty value, reset_input_buffer leaves the buffer,
disconnect leaves the state; each is a total function of the embedding, so
none of them raises a link-not-open error. -/
theorem link_ops_noop (s : ArduinoSerial) (h : isOpenConn s = false)
    (d : String) (wire : List String) (avail buf : List Nat) :
    s.send d wire = wire ∧ s.receive avail = [] ∧
    s.reset_input_buffer buf = buf ∧ s.disconnect = s := by
  simp [ArduinoSerial.send, ArduinoSerial.receive, ArduinoSerial.reset_input_buffer,
    ArduinoSerial.disconnect, h]

/-- Claim C10 witness on the closed-but-present connection. -/
theorem link_ops_noop_w :
    isOpenConn ardShut = false ∧
    (ardShut.send "READ A0\n" [] = [] ∧ ardShut.receive [82] = [] ∧
      ardShut.reset_input_buffer [1] = [1] ∧ ardShut.disconnect = ardShut) :=
  ⟨by decide, link_ops_noop ardShut (by decide) "READ A0\n" [] [82] [1]⟩

/-- Claim C1 counterexample: the response 82, 2, 52 on unsigned-int channel
A1 declares payload length 2 but carries only 3 bytes in total, fewer than
2 + 2; the claim says such a response is invalid and no sample is appended,
yet the code appends the truncated little-endian decode 52. -/
theorem short_frame_appends :
    grabChannel Channel.A1 [82, 2, 52] [] 50 = Except.ok [Sample.uint 52] := by
  rfl

/-- Claim C1 amended: a response that is empty or whose first byte differs
from the ASCII R marker 82 appends no sample for that channel; a response
with valid marker but fewer than 2 + L bytes is NOT rejected: on
unsigned-int channels the clamped payload slice is decoded and appended
(see the counterexample). -/
theorem invalid_marker_skips (ch : Channel) (data : List Nat) (q : List Sample)
    (W : Nat) (h : data = [] ∨ data.headD 0 ≠ 82) :
    grabChannel ch data q W = Except.ok q :=
  grabChannel_skip ch data q W h

/-- Claim C1 amended witness: a nonempty response with wrong marker. -/
theorem invalid_marker_skips_w :
    (([7, 1] : List Nat) = [] ∨ ([7, 1] : List Nat).headD 0 ≠ 82) ∧
    grabChannel Channel.A0 [7, 1] [] 50 = Except.ok [] :=
  ⟨Or.inr (by decide), invalid_marker_skips Channel.A0 [7, 1] [] 50 (Or.inr (by decide))⟩

/-- Claim C9: on an unsigned-int channel, any response with at least 2
bytes whose first byte is the marker 82 gets a sample appended, the
little-endian integer of the bytes from offset 2 up to at most offset
2 + L, where L is the declared length data[1]; when fewer than 2 + L bytes
are present the clamped slice is silently decoded as a shorter integer. -/
theorem uint_truncated_decode (ch : Channel) (data : List Nat) (q : List Sample)
    (W : Nat) (hch : ch ≠ Channel.FS) (h2 : 2 ≤ data.length)
    (hm : data.headD 0 = 82) :
    grabChannel ch data q W =
      Except.ok (dappend W q (Sample.uint
        (leNat ((data.drop 2).take ((data.drop 1).headD 0))))) := by
  cases data with
  | nil => simp at h2
  | cons b rest =>
    cases rest with
    | nil => simp at h2
    | cons L rest2 =>
      simp only [List.headD_cons] at hm
      subst hm
      simp [grabChannel, hch]

/-- Claim C9 witness: declared length 3, only 2 payload bytes present;
the truncated slice decodes to 513. -/
theorem uint_truncated_decode_w :
    (Channel.A1 ≠ Channel.FS ∧ 2 ≤ ([82, 3, 1, 2] : List Nat).length ∧
      ([82, 3, 1, 2] : List Nat).headD 0 = 82) ∧
    grabChannel Channel.A1 [82, 3, 1, 2] [] 50 =
      Except.ok (dappend 50 [] (Sample.uint
        (leNat ((([82, 3, 1, 2] : List Nat).drop 2).take
          ((([82, 3, 1, 2] : List Nat).drop 1).headD 0))))) :=
  ⟨⟨by decide, by decide, by decide⟩,
    uint_truncated_decode Channel.A1 [82, 3, 1, 2] [] 50 (by decide) (by decide) (by decide)⟩

/-- Claim C7: on an unsigned-int channel, a valid frame with marker 82,
declared length L and at least L payload bytes decodes its payload as a
little-endian unsigned integer, whatever L is; in particular the payload
bytes 52 and 18 (0x34, 0x12) decode to 4660 (0x1234). -/
theorem uint_le_decode (ch : Channel) (L : Nat) (payload rest : List Nat)
    (q : List Sample) (W : Nat) (hch : ch ≠ Channel.FS)
    (hL : payload.length = L) :
    grabChannel ch (82 :: L :: (payload ++ rest)) q W =
      Except.ok (dappend W q (Sample.uint (leNat payload))) ∧
    leNat [52, 18] = 4660 := by
  constructor
  · have htake : (payload ++ rest).take L = payload := List.take_left' hL
    simp [grabChannel, hch, htake]
  · rfl

/-- Claim C7 witness: a 2-byte payload frame for channel A0. -/
theorem uint_le_decode_w :
    (Channel.A0 ≠ Channel.FS ∧ ([52, 18] : List Nat).length = 2) ∧
    (grabChannel Channel.A0 (82 :: 2 :: (([52, 18] : List Nat) ++ [])) [] 50 =
        Except.ok (dappend 50 [] (Sample.uint (leNat [52, 18]))) ∧
      leNat [52, 18] = 4660) :=
  ⟨⟨by decide, by decide⟩,
    uint_le_decode Channel.A0 2 [52, 18] [] [] 50 (by decide) (by decide)⟩

/-- Claim C2 counterexample: with the link open, a response for A0
consisting of the bare marker byte 82 makes data[1] raise IndexError; the
round aborts at A0, so A1 and FS are never attempted (only READ A0 reaches
the wire) and the error escapes: a per-channel failure is not always
contained to its channel. -/
theorem round_abort_on_bare_marker :
    grab_data ardOpen respAbort 50 st0 =
      (st0, ["READ A0\n"], some PyError.indexError) := by
  rfl

/-- Claim C2 amended: failures of kind link-not-open, empty response or
wrong-marker response do skip only their channel: whenever A0 and A1 both
answer with an empty or wrong-marker response, the round still sends
READ FS and attempts FS, whose outcome alone decides the round result.
Decode errors however (a bare marker byte, an FS payload slice of length
other than 4) raise an uncaught exception that aborts the round, skipping
every later channel (see the counterexample). -/
theorem round_skips_and_continues (resp : Channel → List Nat) (st : Store) (W : Nat)
    (h0 : resp Channel.A0 = [] ∨ (resp Channel.A0).headD 0 ≠ 82)
    (h1 : resp Channel.A1 = [] ∨ (resp Channel.A1).headD 0 ≠ 82) :
    grab_data ardOpen resp W st =
      match grabChannel Channel.FS (ardOpen.receive (resp Channel.FS))
          (Store.get st Channel.FS) W with
      | Except.ok q =>
          (Store.set st Channel.FS q, ["READ A0\n", "READ A1\n", "READ FS\n"], none)
      | Except.error e => (st, ["READ A0\n", "READ A1\n", "READ FS\n"], some e) := by
  have hopen : isOpenConn ardOpen = true := rfl
  have hs0 : grabChannel Channel.A0 (ardOpen.receive (resp Channel.A0))
      (Store.get st Channel.A0) W = Except.ok (Store.get st Channel.A0) := by
    rw [receive_id _ hopen]
    exact grabChannel_skip _ _ _ _ h0
  have hs1 : grabChannel Channel.A1 (ardOpen.receive (resp Channel.A1))
      (Store.get st Channel.A1) W = Except.ok (Store.get st Channel.A1) := by
    rw [receive_id _ hopen]
    exact grabChannel_skip _ _ _ _ h1
  simp only [grab_data, sensors, runRound, hs0, hs1, Store.set_get]
  cases hFS : grabChannel Channel.FS (ardOpen.receive (resp Channel.FS))
      (Store.get st Channel.FS) W with
  | ok q => rfl
  | error e => rfl

/-- Claim C2 amended witness: A0 empty, A1 wrong marker, FS a valid
4-byte-payload frame; the round appends only to FS. -/
theorem round_skips_and_continues_w :
    ((respSkip Channel.A0 = [] ∨ (respSkip Channel.A0).headD 0 ≠ 82) ∧
      (respSkip Channel.A1 = [] ∨ (respSkip Channel.A1).headD 0 ≠ 82)) ∧
    grab_data ardOpen respSkip 50 st0 =
      match grabChannel Channel.FS (ardOpen.receive (respSkip Channel.FS))
          (Store.get st0 Channel.FS) 50 with
      | Except.ok q =>
          (Store.set st0 Channel.FS q, ["READ A0\n", "READ A1\n", "READ FS\n"], none)
      | Except.error e => (st0, ["READ A0\n", "READ A1\n", "READ FS\n"], some e) :=
  ⟨⟨Or.inl (by decide), Or.inr (by decide)⟩,
    round_skips_and_continues respSkip st0 50 (Or.inl (by decide)) (Or.inr (by decide))⟩

/-- Claim C4 counterexample: the FS response 82, 5, 0, 0, 128, 63 declares
payload length 5, different from 4, yet decoding succeeds: the clamped
slice data[2:7] holds exactly the 4 available bytes, struct.unpack accepts
it, and the sample with bit pattern 1065353216 is appended — decoding with
declared length other than 4 does not always fail. -/
theorem fs_bad_length_decodes :
    grabChannel Channel.FS [82, 5, 0, 0, 128, 63] [] 50 =
      Except.ok [Sample.float32 1065353216] := by
  rfl

/-- A round on the open link where A0 and A1 skip and FS raises: the
error escapes with the store unchanged and all three requests sent. -/
theorem runRound_skip2_err (resp : Channel → List Nat) (st : Store) (W : Nat) (e : PyError)
    (h0 : grabChannel Channel.A0 (ardOpen.receive (resp Channel.A0))
      (Store.get st Channel.A0) W = Except.ok (Store.get st Channel.A0))
    (h1 : grabChannel Channel.A1 (ardOpen.receive (resp Channel.A1))
      (Store.get st Channel.A1) W = Except.ok (Store.get st Channel.A1))
    (h2 : grabChannel Channel.FS (ardOpen.receive (resp Channel.FS))
      (Store.get st Channel.FS) W = Except.error e) :
    grab_data ardOpen resp W st =
      (st, ["READ A0\n", "READ A1\n", "READ FS\n"], some e) := by
  simp only [grab_data, sensors, runRound, h0, h1, h2, Store.set_get]
  rfl

/-- Claim C4 amended: on the FS channel, decoding fails exactly when the
clamped payload slice data[2:2+L] has length other than 4 (a declared L
other than 4 alone does not force failure, see the counterexample); when
it fails, no sample is appended for FS, but the failure is NOT recovered
locally: the struct.error escapes grab_data and ends the round. -/
theorem fs_slice_len_fails (data : List Nat) (q : List Sample) (W : Nat) (st : Store)
    (hm : data.headD 0 = 82) (h2 : 2 ≤ data.length)
    (hlen : ((data.drop 2).take ((data.drop 1).headD 0)).length ≠ 4) :
    grabChannel Channel.FS data q W = Except.error PyError.structError ∧
    grab_data ardOpen (fun ch => if ch = Channel.FS then data else []) W st =
      (st, ["READ A0\n", "READ A1\n", "READ FS\n"], some PyError.structError) := by
  have hopen : isOpenConn ardOpen = true := rfl
  have hfail : ∀ q2 : List Sample,
      grabChannel Channel.FS data q2 W = Except.error PyError.structError := by
    intro q2
    cases data with
    | nil => simp at h2
    | cons b rest =>
      cases rest with
      | nil => simp at h2
      | cons L rest2 =>
        simp only [List.headD_cons] at hm
        subst hm
        simp only [List.drop_succ_cons, List.drop_zero, List.headD_cons,
          List.length_take] at hlen
        simp [grabChannel]
        omega
  refine ⟨hfail q, ?_⟩
  apply runRound_skip2_err
  · show grabChannel Channel.A0 (ardOpen.receive []) (Store.get st Channel.A0) W = _
    rw [receive_id _ hopen]
    exact grabChannel_skip _ _ _ _ (Or.inl rfl)
  · show grabChannel Channel.A1 (ardOpen.receive []) (Store.get st Channel.A1) W = _
    rw [receive_id _ hopen]
    exact grabChannel_skip _ _ _ _ (Or.inl rfl)
  · show grabChannel Channel.FS (ardOpen.receive data) (Store.get st Channel.FS) W = _
    rw [receive_id _ hopen]
    exact hfail _

/-- Claim C4 amended witness: an FS frame with declared length 2 and a
2-byte slice; the struct.error escapes. -/
theorem fs_slice_len_fails_w :
    (([82, 2, 0, 0] : List Nat).headD 0 = 82 ∧ 2 ≤ ([82, 2, 0, 0] : List Nat).length ∧
      ((([82, 2, 0, 0] : List Nat).drop 2).take
        ((([82, 2, 0, 0] : List Nat).drop 1).headD 0)).length ≠ 4) ∧
    (grabChannel Channel.FS [82, 2, 0, 0] [] 50 = Except.error PyError.structError ∧
      grab_data ardOpen (fun ch => if ch = Channel.FS then [82, 2, 0, 0] else []) 50 st0 =
        (st0, ["READ A0\n", "READ A1\n", "READ FS\n"], some PyError.structError)) :=
  ⟨⟨by decide, by decide, by decide⟩,
    fs_slice_len_fails [82, 2, 0, 0] [] 50 st0 (by decide) (by decide) (by decide)⟩

/-- Claim C3, behavior at the failing input: with two ports whose
descriptions both contain Arduino, the scan loop of connect has no break,
so every match overwrites self.port and the LAST match wins: the selected
and opened port is COM4, not the first match COM3 that the claim (and the
docstrings of the source) promise; and with no matching port, connect does
not fail with DeviceNotFound: the open of the untouched empty port string
raises SerialException, which connect catches and prints, returning
normally with the connection still absent. -/
theorem connect_picks_last_match :
    (ArduinoSerial.connect envTwoArduinos ardClosed).1.port = "COM4" ∧
    scanPorts envTwoArduinos.ports "" = "COM4" ∧
    (ArduinoSerial.connect envNoArduino ardClosed).1.connection = none ∧
    (ArduinoSerial.connect envNoArduino ardClosed).2 = PyReturn.none := by
  refine ⟨?_, ?_, ?_, ?_⟩ <;> rfl

/-- Claim C6 counterexample: with no matching port and a failing open, the
call connect returns the Python value None, not a boolean, and the
connection-level failure is not surfaced to the caller: the call returns
normally, leaving the connection absent. -/
theorem connect_returns_none :
    (ArduinoSerial.connect envNoArduino ardClosed).2 = PyReturn.none ∧
    (ArduinoSerial.connect envNoArduino ardClosed).1.connection = none := by
  exact ⟨rfl, rfl⟩

/-- Claim C6 amended: connect returns None (no boolean) and swallows
connection-level errors after printing them; what holds of the claim is
the disconnected aftermath: when the open of the selected port fails and
no connection existed, the system is left disconnected and every
subsequent acquisition round is a complete no-op. -/
theorem connect_failure_disconnected (env : Env) (s : ArduinoSerial)
    (hconn : s.connection = none)
    (hopen : env.openPort (selectedPort env s) = false) :
    (ArduinoSerial.connect env s).2 = PyReturn.none ∧
    (ArduinoSerial.connect env s).1.connection = none ∧
    ∀ (resp : Channel → List Nat) (W : Nat) (st : Store),
      grab_data (ArduinoSerial.connect env s).1 resp W st = (st, [], none) := by
  have hfst : (ArduinoSerial.connect env s).1 = { s with port := selectedPort env s } := by
    simp [ArduinoSerial.connect, hopen]
  have hclosed : isOpenConn (ArduinoSerial.connect env s).1 = false := by
    rw [hfst]
    simp [isOpenConn, hconn]
  refine ⟨?_, ?_, ?_⟩
  · simp [ArduinoSerial.connect, hopen]
  · rw [hfst]
    exact hconn
  · intro resp W st
    exact runRound_closed _ resp W sensors st [] hclosed

/-- Claim C6 amended witness: the empty environment, a concrete response
set and a concrete store. -/
theorem connect_failure_disconnected_w :
    (ardClosed.connection = none ∧
      envNoArduino.openPort (selectedPort envNoArduino ardClosed) = false) ∧
    ((ArduinoSerial.connect envNoArduino ardClosed).2 = PyReturn.none ∧
      (ArduinoSerial.connect envNoArduino ardClosed).1.connection = none ∧
      grab_data (ArduinoSerial.connect envNoArduino ardClosed).1
        (fun _ => [82, 1, 7]) 50 st0 = (st0, [], none)) :=
  ⟨⟨rfl, rfl⟩,
    have h := connect_failure_disconnected envNoArduino ardClosed rfl rfl
    ⟨h.1, h.2.1, h.2.2 (fun _ => [82, 1, 7]) 50 st0⟩⟩
